import Mathlib

/-!
Shallow embedding of the `KSD554/predict` Flask application
(`src/app.py`, `src/auth.py`, `src/utils.py`).

Conventions of the embedding:
* Numeric request fields (parsed by Python `float(...)`) are modelled as
  exact rationals `ℚ`; all threshold comparisons in the source are exact,
  so no floating-point behaviour is relevant to the claims.
* The Flask session dict is modelled by its two keys `user_id` and
  `user_name`, each an `Option String` (`none` means the key is absent).
* The MongoDB `predictions` collection and the JSON file
  `prediction_history.json` managed by `utils.PredictionHistory` are two
  distinct stores, exactly as in the source; both live in `AppState`.
* The trained per-disease `RandomForestClassifier` together with its
  `StandardScaler` is taken as an oracle parameter
  `classifier : String → List ℚ → Bool` of the `predict` handler
  (it is trained on random synthetic data at startup; the claims about
  `/predict` are all conditional on its boolean output).
* The textual `description` field of a risk factor (a presentation string
  interpolating the float input) and the PDF layout are not modelled; a
  risk factor is its `name` and `severity`, a generated report is the
  structured data it renders.
-/

namespace MediPredict

/-! ### Data model -/

/-- Flask session, modelled by the two keys the application uses. -/
structure Session where
  user_id : Option String
  user_name : Option String
deriving Repr, DecidableEq

/-- One user document of the MongoDB `users` collection
(`_id` modelled as a `Nat` counter). -/
structure User where
  id : Nat
  email : String
  password : String
  name : String
deriving Repr, DecidableEq

/-- The MongoDB `users` collection plus the `_id` generator. -/
structure UsersDb where
  users : List User
  next_id : Nat
deriving Repr, DecidableEq

/-- One blog post document (the fields read or written by the claims:
`_id`, `created_at`, `likes`, `likes_by`). -/
structure BlogPost where
  id : Nat
  created_at : Nat
  likes : Int
  likes_by : List String
deriving Repr, DecidableEq

/-- The numeric measurements a `/predict` request can carry
(`input_data`, already parsed from JSON). -/
structure InputData where
  glucose : ℚ
  age : ℚ
  bmi : ℚ
  systolic : ℚ
  diastolic : ℚ
  heart_rate : ℚ
  cholesterol : ℚ
deriving Repr, DecidableEq

/-- A risk factor as produced by `app.get_risk_factors`: its `name` and
`severity` (the `description` presentation string is not modelled). -/
structure RiskFactor where
  name : String
  severity : String
deriving Repr, DecidableEq

/-- A recommendation block as produced by `app.get_recommendations`:
a `title` and the list of `items`. -/
structure Recommendation where
  title : String
  items : List String
deriving Repr, DecidableEq

/-- One entry of the `prediction_history.json` file read by
`utils.PredictionHistory` (the fields the code accesses). -/
structure HistEntry where
  disease_type : String
  risk_level : String
  probability : Nat
  timestamp : Nat
deriving Repr, DecidableEq

/-- One document of the MongoDB `predictions` collection, as assembled by
the `/predict` handler before `auth.save_prediction`. -/
structure MongoPrediction where
  user_id : String
  disease_type : String
  input_data : InputData
  prediction : Bool
  risk_factors : List RiskFactor
  recommendations : List Recommendation
  timestamp : Nat
deriving Repr, DecidableEq

/-- The persistent state the claims touch: the MongoDB `predictions`
collection and the JSON history file. -/
structure AppState where
  mongo_predictions : List MongoPrediction
  history_file : List HistEntry
deriving Repr, DecidableEq

/-- An HTTP response: either an error with a status code and message
(`jsonify(...), status`) or a success payload. -/
inductive HttpResult (α : Type) where
  | err (status : Nat) (msg : String)
  | ok (val : α)
deriving Repr, DecidableEq

/-! ### auth.py -/

/-- Embeds `auth.is_authenticated`: `'user_id' in session`. -/
def is_authenticated (s : Session) : Bool :=
  s.user_id.isSome

/-- Embeds `auth.register_user`.  Python string falsiness (`not email`)
is emptiness; `users.find_one({'email': email})` is `find?` on the user
list; `bcrypt.hashpw(password, gensalt())` is the oracle parameter
`hashpw`; `str(result.inserted_id)` is `toString` of the id counter. -/
def register_user (hashpw : String → String) (email password name : String)
    (sess : Session) (db : UsersDb) : (Bool × String) × Session × UsersDb :=
  if email = "" ∨ password = "" ∨ name = "" then
    ((false, "Tous les champs sont obligatoires"), sess, db)
  else
    match db.users.find? (fun u => u.email == email) with
    | some _ => ((false, "Un compte existe déjà avec cet email"), sess, db)
    | none =>
      let user : User := ⟨db.next_id, email, hashpw password, name⟩
      ((true, "Inscription réussie"),
       { sess with user_id := some (toString db.next_id), user_name := some name },
       { users := db.users ++ [user], next_id := db.next_id + 1 })

/-- Embeds `auth.save_prediction`: insert one document into the MongoDB
`predictions` collection (the `user_id` key is already set by the caller
model `predict`). -/
def save_prediction (st : AppState) (rec : MongoPrediction) : AppState :=
  { st with mongo_predictions := st.mongo_predictions ++ [rec] }

/-- Helper for `update_one({'_id': pid}, ...)`: apply `f` to the first
document whose `_id` matches, leave the rest unchanged. -/
def updateFirst (coll : List BlogPost) (pid : Nat) (f : BlogPost → BlogPost) :
    List BlogPost :=
  match coll with
  | [] => []
  | p :: rest => if p.id = pid then f p :: rest else p :: updateFirst rest pid f

/-- Embeds `auth.toggle_like`.  `find_one({'_id': pid, 'likes_by': uid})`
is `any` (a document with that id whose `likes_by` array contains the
user); `$pull` removes every occurrence, `$push` appends, `$inc` adds. -/
def toggle_like (coll : List BlogPost) (post_id : Nat) (user_id : String) :
    List BlogPost :=
  if coll.any (fun p => p.id == post_id && p.likes_by.contains user_id) then
    updateFirst coll post_id (fun p =>
      { p with likes_by := p.likes_by.filter (fun u => u != user_id),
               likes := p.likes - 1 })
  else
    updateFirst coll post_id (fun p =>
      { p with likes_by := p.likes_by ++ [user_id],
               likes := p.likes + 1 })

/-- Comparison used by the model of `blog_posts.find().sort('created_at', -1)`:
descending `created_at` (MongoDB sorts stably in the model). -/
def created_desc (a b : BlogPost) : Bool :=
  decide (b.created_at ≤ a.created_at)

/-- The page object returned by `auth.get_blog_posts`. -/
structure BlogPage where
  posts : List BlogPost
  total : Nat
  pages : Nat
  current_page : Nat
deriving Repr, DecidableEq

/-- Embeds `auth.get_blog_posts`.  The collection is `Option`-wrapped:
`none` models a MongoDB access that raises, in which case the Python
function returns `None` from its `except` clause. -/
def get_blog_posts (db : Option (List BlogPost)) (page per_page : Nat) :
    Option BlogPage :=
  match db with
  | none => none
  | some posts_db =>
    let skip := (page - 1) * per_page
    let total := posts_db.length
    let posts := ((posts_db.mergeSort created_desc).drop skip).take per_page
    some ⟨posts, total, (total + per_page - 1) / per_page, page⟩

/-! ### utils.py — PredictionHistory -/

/-- Embeds `PredictionHistory.get_predictions`: the parsed content of the
JSON history file. -/
def get_predictions (st : AppState) : List HistEntry :=
  st.history_file

/-- Embeds `PredictionHistory.get_last_prediction`: filter the history by
disease type, then `max(..., key=timestamp)` (Python `max` keeps the
earliest of equals). -/
def get_last_prediction (history : List HistEntry) (disease_type : String) :
    Option HistEntry :=
  match history.filter (fun p => p.disease_type == disease_type) with
  | [] => none
  | h :: t => some (t.foldl (fun best p =>
      if best.timestamp < p.timestamp then p else best) h)

/-- The `stats` dict built by `PredictionHistory.get_user_statistics`:
the two inner dicts are association lists, as in Python. -/
structure Stats where
  total_predictions : Nat
  risk_levels : List (String × Nat)
  disease_types : List (String × Nat)
deriving Repr, DecidableEq

/-- Outcome of a Python call: a returned value or a raised exception. -/
inductive PyResult (α : Type) where
  | raised (msg : String)
  | returned (val : α)
deriving Repr, DecidableEq

/-- Python `d[key] += 1` on a dict modelled as an association list:
`none` models the `KeyError` raised when the key is absent. -/
def dictIncr (d : List (String × Nat)) (key : String) :
    Option (List (String × Nat)) :=
  match d with
  | [] => none
  | (k, v) :: rest =>
    if k = key then some ((k, v + 1) :: rest)
    else (dictIncr rest key).map (fun rest2 => (k, v) :: rest2)

/-- Initial `risk_levels` dict of `get_user_statistics`. -/
def risk_levels_init : List (String × Nat) :=
  [("Élevé", 0), ("Modéré", 0), ("Faible", 0)]

/-- Initial `disease_types` dict of `get_user_statistics`. -/
def disease_types_init : List (String × Nat) :=
  [("diabetes", 0), ("hypertension", 0), ("cardiovascular", 0)]

/-- One iteration of the counting loop of `get_user_statistics`:
increment both dicts at the entry's keys, propagating a `KeyError`. -/
def stats_step (acc : Option (List (String × Nat) × List (String × Nat)))
    (p : HistEntry) : Option (List (String × Nat) × List (String × Nat)) :=
  acc.bind (fun rd =>
    (dictIncr rd.1 p.risk_level).bind (fun r2 =>
      (dictIncr rd.2 p.disease_type).map (fun d2 => (r2, d2))))

/-- Embeds `PredictionHistory.get_user_statistics`: `None` on an empty
history, otherwise count every entry into the two fixed-key dicts; an
entry with an unknown `risk_level` or `disease_type` raises `KeyError`. -/
def get_user_statistics (preds : List HistEntry) : PyResult (Option Stats) :=
  if preds.isEmpty then .returned none
  else
    match preds.foldl stats_step (some (risk_levels_init, disease_types_init)) with
    | none => .raised "KeyError"
    | some (r, d) => .returned (some ⟨preds.length, r, d⟩)

/-! ### app.py — risk factors -/

/-- Risk factor appended when `glucose >= 200`. -/
def glycemie_tres_elevee : RiskFactor := ⟨"Glycémie très élevée", "high"⟩

/-- Risk factor appended when `140 <= glucose < 200`. -/
def glycemie_elevee : RiskFactor := ⟨"Glycémie élevée", "medium"⟩

/-- Risk factor appended when `bmi >= 30`. -/
def obesite : RiskFactor := ⟨"Obésité", "high"⟩

/-- Risk factor appended when `25 <= bmi < 30`. -/
def surpoids : RiskFactor := ⟨"Surpoids", "medium"⟩

/-- Risk factor appended when `age >= 45`. -/
def age_a_risque : RiskFactor := ⟨"Âge à risque", "medium"⟩

/-- Risk factor appended when `systolic >= 160 or diastolic >= 100`. -/
def hypertension_severe : RiskFactor := ⟨"Hypertension sévère", "high"⟩

/-- Risk factor appended when `systolic >= 140 or diastolic >= 90`. -/
def hypertension_moderee : RiskFactor := ⟨"Hypertension", "medium"⟩

/-- Risk factor appended when `systolic >= 130 or diastolic >= 85`. -/
def pre_hypertension : RiskFactor := ⟨"Pré-hypertension", "low"⟩

/-- Risk factor appended when `cholesterol >= 240`. -/
def cholesterol_tres_eleve : RiskFactor := ⟨"Cholestérol très élevé", "high"⟩

/-- Risk factor appended when `200 <= cholesterol < 240`. -/
def cholesterol_eleve : RiskFactor := ⟨"Cholestérol élevé", "medium"⟩

/-- Risk factor appended when `heart_rate >= 100`. -/
def frequence_cardiaque_elevee : RiskFactor := ⟨"Fréquence cardiaque élevée", "medium"⟩

/-- Risk factor appended when `heart_rate < 60` (and not `>= 100`). -/
def frequence_cardiaque_basse : RiskFactor := ⟨"Fréquence cardiaque basse", "low"⟩

/-- Embeds `app.get_risk_factors`: the per-disease if/elif threshold
chains, appending factors in source order.  The `prediction` argument is
accepted and ignored, exactly as in the source. -/
def get_risk_factors (disease_type : String) (input_data : InputData)
    (prediction : Bool) : List RiskFactor :=
  if disease_type = "diabetes" then
    (if input_data.glucose ≥ 200 then [glycemie_tres_elevee]
     else if input_data.glucose ≥ 140 then [glycemie_elevee]
     else [])
    ++ (if input_data.bmi ≥ 30 then [obesite]
        else if input_data.bmi ≥ 25 then [surpoids]
        else [])
    ++ (if input_data.age ≥ 45 then [age_a_risque] else [])
  else if disease_type = "hypertension" then
    (if input_data.systolic ≥ 160 ∨ input_data.diastolic ≥ 100 then
       [hypertension_severe]
     else if input_data.systolic ≥ 140 ∨ input_data.diastolic ≥ 90 then
       [hypertension_moderee]
     else if input_data.systolic ≥ 130 ∨ input_data.diastolic ≥ 85 then
       [pre_hypertension]
     else [])
  else
    (if input_data.cholesterol ≥ 240 then [cholesterol_tres_eleve]
     else if input_data.cholesterol ≥ 200 then [cholesterol_eleve]
     else [])
    ++ (if input_data.heart_rate ≥ 100 then [frequence_cardiaque_elevee]
        else if input_data.heart_rate < 60 then [frequence_cardiaque_basse]
        else [])

/-! ### app.py — recommendations -/

/-- The fixed closing block appended for every disease and risk level. -/
def recommandations_generales_sante : Recommendation :=
  ⟨"Recommandations générales de santé",
   ["Maintenir un poids santé",
    "Dormir suffisamment (7-8 heures par nuit)",
    "Rester hydraté",
    "Gérer votre stress au quotidien"]⟩

/-- Embeds `app.get_recommendations`: one block selected by the
`(disease_type, risk_level)` pair (none for an unknown disease type, as
in the source, where no `if` branch fires), then the fixed general
block. -/
def get_recommendations (disease_type risk_level : String) :
    List Recommendation :=
  (if disease_type = "diabetes" then
     if risk_level = "Faible" then
       [⟨"Recommandations générales",
         ["Maintenir une alimentation équilibrée",
          "Faire de l\u0027exercice régulièrement",
          "Surveiller votre glycémie occasionnellement"]⟩]
     else if risk_level = "Modéré" then
       [⟨"Surveillance et mode de vie",
         ["Réduire la consommation de sucres raffinés",
          "Augmenter l\u0027activité physique à 30 minutes par jour",
          "Surveiller votre glycémie hebdomadairement",
          "Consulter un nutritionniste"]⟩]
     else
       [⟨"Actions urgentes",
         ["Consulter un médecin rapidement",
          "Surveiller votre glycémie quotidiennement",
          "Suivre un régime strict",
          "Maintenir un journal alimentaire"]⟩]
   else if disease_type = "hypertension" then
     if risk_level = "Faible" then
       [⟨"Prévention",
         ["Maintenir une alimentation pauvre en sel",
          "Pratiquer une activité physique régulière",
          "Gérer votre stress"]⟩]
     else if risk_level = "Modéré" then
       [⟨"Mode de vie à adapter",
         ["Réduire significativement la consommation de sel",
          "Exercice cardiovasculaire 3 fois par semaine",
          "Éviter l\u0027alcool et le tabac",
          "Pratiquer la méditation"]⟩]
     else
       [⟨"Suivi médical",
         ["Consulter un cardiologue rapidement",
          "Suivre un régime DASH",
          "Surveiller votre tension quotidiennement",
          "Limiter la caféine"]⟩]
   else if disease_type = "cardiovascular" then
     if risk_level = "Faible" then
       [⟨"Prévention cardiovasculaire",
         ["Maintenir un mode de vie actif",
          "Suivre une alimentation équilibrée",
          "Éviter le tabac"]⟩]
     else if risk_level = "Modéré" then
       [⟨"Surveillance cardiovasculaire",
         ["Augmenter l\u0027activité physique",
          "Adopter un régime méditerranéen",
          "Gérer le stress",
          "Surveiller le cholestérol"]⟩]
     else
       [⟨"Actions immédiates",
         ["Consulter un cardiologue d\u0027urgence",
          "Suivre un programme de réadaptation cardiaque",
          "Contrôler strictement le cholestérol et la tension",
          "Arrêter immédiatement le tabac"]⟩]
   else [])
  ++ [recommandations_generales_sante]

/-! ### app.py — the /predict handler and the other routes -/

/-- The JSON body of a `POST /predict` request, after `request.get_json()`
and the two `data.get(...)` lookups (`none` when the key is absent). -/
structure PredictBody where
  disease_type : Option String
  input_data : Option InputData
deriving Repr, DecidableEq

/-- The JSON object returned by a successful `/predict`. -/
structure PredictResponse where
  success : Bool
  prediction : Bool
  risk_level : String
  risk_factors : List RiskFactor
  recommendations : List Recommendation
  probability : Nat
deriving Repr, DecidableEq

/-- The feature row `X` that `predict` assembles for each disease type. -/
def features (disease_type : String) (input_data : InputData) : List ℚ :=
  if disease_type = "diabetes" then
    [input_data.glucose, input_data.age, input_data.bmi]
  else if disease_type = "hypertension" then
    [input_data.systolic, input_data.diastolic, input_data.age]
  else
    [input_data.heart_rate, input_data.cholesterol, input_data.age]

/-- Embeds the `POST /predict` handler of `app.py`.  `classifier` is the
oracle for `bool(models[dt].predict(scalers[dt].transform(X))[0])`; `now`
is `datetime.now()`.  The handler checks authentication, then the body,
then the disease type, computes the response, and persists the prediction
into the MongoDB collection via `save_prediction` (and only there). -/
def predict (sess : Session) (st : AppState) (body : Option PredictBody)
    (classifier : String → List ℚ → Bool) (now : Nat) :
    HttpResult PredictResponse × AppState :=
  if ¬ is_authenticated sess then
    (.err 401 "Veuillez vous connecter pour faire une prédiction", st)
  else
    match body with
    | none => (.err 400 "Aucune donnée reçue", st)
    | some data =>
      match data.disease_type, data.input_data with
      | some dt, some input_data =>
        if dt = "" then
          (.err 400 "Données manquantes: type de maladie et données requises", st)
        else if ¬ (dt = "diabetes" ∨ dt = "hypertension" ∨ dt = "cardiovascular") then
          (.err 400 "Type de maladie non valide", st)
        else
          let prediction := classifier dt (features dt input_data)
          let risk_factors := get_risk_factors dt input_data prediction
          let risk_level := if prediction then "Élevé" else "Faible"
          let recommendations := get_recommendations dt risk_level
          let response : PredictResponse :=
            ⟨true, prediction, risk_level, risk_factors, recommendations,
             if prediction then 75 else 25⟩
          let record : MongoPrediction :=
            ⟨sess.user_id.getD "", dt, input_data, prediction, risk_factors,
             recommendations, now⟩
          (.ok response, save_prediction st record)
      | _, _ =>
        (.err 400 "Données manquantes: type de maladie et données requises", st)

/-- Embeds the `GET /history` handler: 401 when unauthenticated,
otherwise the JSON history list. -/
def get_history (sess : Session) (st : AppState) :
    HttpResult (List HistEntry) :=
  if ¬ is_authenticated sess then
    .err 401 "Veuillez vous connecter pour accéder à l\u0027historique"
  else
    .ok (get_predictions st)

/-- Embeds the `GET /statistics` handler: 401 when unauthenticated, 500
when `get_user_statistics` raises, 404 when it returns `None`. -/
def get_statistics (sess : Session) (st : AppState) : HttpResult Stats :=
  if ¬ is_authenticated sess then
    .err 401 "Veuillez vous connecter pour accéder aux statistiques"
  else
    match get_user_statistics (get_predictions st) with
    | .raised _ => .err 500 "Erreur lors de la récupération des statistiques"
    | .returned none => .err 404 "Aucune donnée disponible pour les statistiques"
    | .returned (some s) => .ok s

/-- Embeds the `GET /statistics_report` handler: 401 when unauthenticated,
404 on an empty history, otherwise the PDF built from the predictions
(modelled as the data it renders). -/
def generate_statistics_report (sess : Session) (st : AppState) :
    HttpResult (List HistEntry) :=
  if ¬ is_authenticated sess then
    .err 401 "Veuillez vous connecter pour générer le rapport"
  else if (get_predictions st).isEmpty then
    .err 404 "Aucune donnée disponible pour le rapport statistique"
  else
    .ok (get_predictions st)

/-- Embeds the `GET /download_report/<disease_type>` handler: look up the
most recent prediction of that disease type in the JSON history file; 404
when there is none, otherwise the PDF rendered from it (modelled as the
entry it renders). -/
def download_report (st : AppState) (disease_type : String) :
    HttpResult HistEntry :=
  match get_last_prediction st.history_file disease_type with
  | none => .err 404 "Aucune prédiction trouvée"
  | some p => .ok p

/-- The state of a fresh deployment: empty MongoDB collection, and the
empty JSON list that `PredictionHistory._ensure_history_file` writes. -/
def initial_state : AppState := ⟨[], []⟩

/-! ### Theorems -/

/-- C3: for disease type `diabetes`, `get_risk_factors` is deterministic
branching on input ranges, independent of the classifier prediction: it
includes `Glycémie très élevée` (high) exactly when `glucose ≥ 200`,
`Glycémie élevée` (medium) exactly when `140 ≤ glucose < 200`, `Obésité`
(high) exactly when `bmi ≥ 30`, `Surpoids` (medium) exactly when
`25 ≤ bmi < 30`, and `Âge à risque` (medium) exactly when `age ≥ 45`,
in that order (the output is a sublist of the canonical ordering). -/
theorem get_risk_factors_diabetes_thresholds (input : InputData) (pred : Bool) :
    (glycemie_tres_elevee ∈ get_risk_factors "diabetes" input pred ↔
      200 ≤ input.glucose) ∧
    (glycemie_elevee ∈ get_risk_factors "diabetes" input pred ↔
      140 ≤ input.glucose ∧ input.glucose < 200) ∧
    (obesite ∈ get_risk_factors "diabetes" input pred ↔ 30 ≤ input.bmi) ∧
    (surpoids ∈ get_risk_factors "diabetes" input pred ↔
      25 ≤ input.bmi ∧ input.bmi < 30) ∧
    (age_a_risque ∈ get_risk_factors "diabetes" input pred ↔ 45 ≤ input.age) ∧
    (get_risk_factors "diabetes" input pred).Sublist
      [glycemie_tres_elevee, glycemie_elevee, obesite, surpoids, age_a_risque] ∧
    get_risk_factors "diabetes" input pred = get_risk_factors "diabetes" input true := by
  simp only [get_risk_factors, reduceIte]
  split_ifs with h1 h2 h3 h4 h5 <;>
    refine ⟨?_, ?_, ?_, ?_, ?_, by decide, by trivial⟩ <;>
    simp_all [glycemie_tres_elevee, glycemie_elevee, obesite, surpoids,
      age_a_risque, not_le]

/-- C2: for every valid authenticated `POST /predict` request, the
returned `risk_level` is a deterministic function of the classifier
output — `Élevé` when the per-disease model predicts positive and
`Faible` otherwise — and the returned `probability` is 75 when positive
and 25 otherwise. -/
theorem predict_risk_level_probability_from_classifier (sess : Session)
    (st : AppState) (dt : String) (input : InputData)
    (clf : String → List ℚ → Bool) (now : Nat)
    (hauth : is_authenticated sess)
    (hdt : dt = "diabetes" ∨ dt = "hypertension" ∨ dt = "cardiovascular") :
    ∃ r st2, predict sess st (some ⟨some dt, some input⟩) clf now = (.ok r, st2) ∧
      r.success = true ∧
      r.risk_level = (if clf dt (features dt input) then "Élevé" else "Faible") ∧
      r.probability = (if clf dt (features dt input) then 75 else 25) := by
  obtain ⟨uid, hu⟩ := Option.isSome_iff_exists.mp hauth
  rcases hdt with h | h | h <;> subst h <;>
    simp [predict, is_authenticated, hu]

/-- Witness for C2 at a concrete authenticated request. -/
theorem predict_risk_level_probability_from_classifier_witness :
    ∃ r st2,
      predict ⟨some "u1", some "Alice"⟩ initial_state
        (some ⟨some "diabetes", some ⟨120, 30, 22, 120, 80, 70, 180⟩⟩)
        (fun _ _ => true) 0 = (.ok r, st2) ∧
      r.success = true ∧
      r.risk_level = (if (fun (_ : String) (_ : List ℚ) => true) "diabetes"
          (features "diabetes" ⟨120, 30, 22, 120, 80, 70, 180⟩) then "Élevé"
        else "Faible") ∧
      r.probability = (if (fun (_ : String) (_ : List ℚ) => true) "diabetes"
          (features "diabetes" ⟨120, 30, 22, 120, 80, 70, 180⟩) then 75
        else 25) :=
  predict_risk_level_probability_from_classifier ⟨some "u1", some "Alice"⟩
    initial_state "diabetes" ⟨120, 30, 22, 120, 80, 70, 180⟩ (fun _ _ => true) 0
    (by decide) (Or.inl rfl)

/-- C4: every protected route (`POST /predict`, `GET /history`,
`GET /statistics`, `GET /statistics_report`) returns HTTP 401 without
touching any state when the session has no `user_id`, and
`is_authenticated` holds exactly when the session carries a `user_id`. -/
theorem protected_routes_require_auth (sess : Session) (st : AppState)
    (body : Option PredictBody) (clf : String → List ℚ → Bool) (now : Nat)
    (h : ¬ is_authenticated sess) :
    predict sess st body clf now =
      (.err 401 "Veuillez vous connecter pour faire une prédiction", st) ∧
    get_history sess st =
      .err 401 "Veuillez vous connecter pour accéder à l'historique" ∧
    get_statistics sess st =
      .err 401 "Veuillez vous connecter pour accéder aux statistiques" ∧
    generate_statistics_report sess st =
      .err 401 "Veuillez vous connecter pour générer le rapport" ∧
    (∀ s : Session, is_authenticated s ↔ s.user_id ≠ none) := by
  refine ⟨?_, ?_, ?_, ?_, fun s => ?_⟩
  · unfold predict; rw [if_pos h]
  · unfold get_history; rw [if_pos h]
  · unfold get_statistics; rw [if_pos h]
  · unfold generate_statistics_report; rw [if_pos h]
  · simp [is_authenticated, Option.isSome_iff_ne_none]

/-- Witness for C4 at a concrete unauthenticated session. -/
theorem protected_routes_require_auth_witness :
    predict ⟨none, none⟩ initial_state none (fun _ _ => false) 0 =
      (.err 401 "Veuillez vous connecter pour faire une prédiction",
       initial_state) ∧
    get_history ⟨none, none⟩ initial_state =
      .err 401 "Veuillez vous connecter pour accéder à l'historique" ∧
    get_statistics ⟨none, none⟩ initial_state =
      .err 401 "Veuillez vous connecter pour accéder aux statistiques" ∧
    generate_statistics_report ⟨none, none⟩ initial_state =
      .err 401 "Veuillez vous connecter pour générer le rapport" ∧
    (∀ s : Session, is_authenticated s ↔ s.user_id ≠ none) :=
  protected_routes_require_auth ⟨none, none⟩ initial_state none
    (fun _ _ => false) 0 (by decide)

/-- C5: for every disease type in the supported set and every risk level
in the three levels, `get_recommendations` returns exactly two blocks —
one selected by the `(disease_type, risk_level)` pair, followed by the
fixed `Recommandations générales de santé` block.  The embedding is a
pure function, so equal inputs always give equal outputs. -/
theorem get_recommendations_two_blocks (d r : String)
    (hd : d ∈ (["diabetes", "hypertension", "cardiovascular"] : List String))
    (hr : r ∈ (["Faible", "Modéré", "Élevé"] : List String)) :
    ∃ b, get_recommendations d r = [b, recommandations_generales_sante] := by
  fin_cases hd <;> fin_cases hr <;> exact ⟨_, rfl⟩

/-- Witness for C5 at a concrete pair. -/
theorem get_recommendations_two_blocks_witness :
    ∃ b, get_recommendations "hypertension" "Modéré" =
      [b, recommandations_generales_sante] :=
  get_recommendations_two_blocks "hypertension" "Modéré" (by simp) (by simp)

/-- C8: every successful `/predict` response has `risk_level` equal to
`Faible` or `Élevé`; the third level `Modéré` is never produced by the
`/predict` endpoint. -/
theorem predict_risk_level_never_modere (sess : Session) (st : AppState)
    (body : Option PredictBody) (clf : String → List ℚ → Bool) (now : Nat)
    (r : PredictResponse) (st2 : AppState)
    (h : predict sess st body clf now = (.ok r, st2)) :
    (r.risk_level = "Faible" ∨ r.risk_level = "Élevé") ∧
    r.risk_level ≠ "Modéré" := by
  unfold predict at h
  split at h
  · simp at h
  · split at h
    · simp at h
    · split at h
      · split at h
        · simp at h
        · split at h
          · simp at h
          · simp only [Prod.mk.injEq, HttpResult.ok.injEq] at h
            obtain ⟨h1, -⟩ := h
            subst h1
            split <;> simp_all
      · simp at h

/-- Witness for C8 at a concrete successful request. -/
theorem predict_risk_level_never_modere_witness :
    (let res := predict ⟨some "u1", none⟩ initial_state
      (some ⟨some "cardiovascular", some ⟨100, 60, 20, 120, 80, 70, 250⟩⟩)
      (fun _ _ => false) 5
    ∃ r, res.1 = .ok r ∧
      (r.risk_level = "Faible" ∨ r.risk_level = "Élevé") ∧
      r.risk_level ≠ "Modéré") := by
  refine ⟨_, rfl, ?_⟩
  exact predict_risk_level_never_modere ⟨some "u1", none⟩ initial_state
    (some ⟨some "cardiovascular", some ⟨100, 60, 20, 120, 80, 70, 250⟩⟩)
    (fun _ _ => false) 5 _ _ rfl

/-- C1 is refuted by the code: a successful authenticated `POST /predict`
persists the prediction only into the MongoDB collection
(`save_prediction`), while `GET /download_report/<disease_type>` reads
`get_last_prediction` from the JSON history file, which no route ever
writes (`PredictionHistory.add_prediction` has no caller).  At a concrete
successful prediction the subsequent download therefore returns the 404
response `Aucune prédiction trouvée`; in general `predict` never changes
the history file. -/
theorem predict_then_download_report_404 :
    (∃ r, (predict ⟨some "u1", some "Alice"⟩ initial_state
        (some ⟨some "diabetes", some ⟨120, 30, 22, 120, 80, 70, 180⟩⟩)
        (fun _ _ => true) 1000).1 = .ok r ∧ r.success = true) ∧
    (predict ⟨some "u1", some "Alice"⟩ initial_state
        (some ⟨some "diabetes", some ⟨120, 30, 22, 120, 80, 70, 180⟩⟩)
        (fun _ _ => true) 1000).2.mongo_predictions ≠ [] ∧
    download_report (predict ⟨some "u1", some "Alice"⟩ initial_state
        (some ⟨some "diabetes", some ⟨120, 30, 22, 120, 80, 70, 180⟩⟩)
        (fun _ _ => true) 1000).2 "diabetes" =
      .err 404 "Aucune prédiction trouvée" ∧
    (∀ (sess : Session) (st : AppState) (body : Option PredictBody)
        (clf : String → List ℚ → Bool) (now : Nat),
      (predict sess st body clf now).2.history_file = st.history_file) := by
  refine ⟨⟨_, rfl, rfl⟩, by decide, rfl, ?_⟩
  intro sess st body clf now
  unfold predict
  repeat' split
  all_goals rfl

/-- Transitivity of the descending `created_at` comparison. -/
theorem created_desc_trans (a b c : BlogPost) (h1 : created_desc a b)
    (h2 : created_desc b c) : created_desc a c := by
  simp only [created_desc, decide_eq_true_eq] at *
  omega

/-- Totality of the descending `created_at` comparison. -/
theorem created_desc_total (a b : BlogPost) :
    created_desc a b || created_desc b a := by
  simp only [created_desc, Bool.or_eq_true, decide_eq_true_eq]
  omega

/-- C6: for every `page ≥ 1` and `per_page ≥ 1`, `get_blog_posts` returns
at most `per_page` posts, namely the slice of the `created_at`-descending
ordering that skips `(page-1)*per_page` posts, with `total` the number of
stored posts and `pages = ⌈total / per_page⌉`; on an internal error it
returns `None`. -/
theorem get_blog_posts_pagination (page per_page : Nat) (db : List BlogPost)
    (hp : 1 ≤ page) (hq : 1 ≤ per_page) :
    (∀ bp, get_blog_posts (some db) page per_page = some bp →
      bp.posts.length ≤ per_page ∧
      bp.posts =
        ((db.mergeSort created_desc).drop ((page - 1) * per_page)).take per_page ∧
      bp.posts.Pairwise (fun a b => b.created_at ≤ a.created_at) ∧
      bp.total = db.length ∧
      bp.pages = db.length ⌈/⌉ per_page ∧
      bp.current_page = page) ∧
    get_blog_posts none page per_page = none := by
  refine ⟨?_, rfl⟩
  intro bp h
  simp only [get_blog_posts, Option.some.injEq] at h
  subst h
  refine ⟨?_, rfl, ?_, rfl, rfl, rfl⟩
  · simp
  · have hs : (db.mergeSort created_desc).Pairwise
        (fun a b => created_desc a b) :=
      List.sorted_mergeSort created_desc_trans created_desc_total db
    have hsub : (((db.mergeSort created_desc).drop
          ((page - 1) * per_page)).take per_page).Sublist
        (db.mergeSort created_desc) :=
      (List.take_sublist _ _).trans (List.drop_sublist _ _)
    exact (hs.sublist hsub).imp (by
      intro a b hab
      simpa [created_desc] using hab)

/-- Witness for C6: a two-post collection, page 1, one post per page. -/
theorem get_blog_posts_pagination_witness :
    (⟨[⟨2, 9, 0, []⟩], 2, 2, 1⟩ : BlogPage).posts.length ≤ 1 ∧
    (⟨[⟨2, 9, 0, []⟩], 2, 2, 1⟩ : BlogPage).posts =
      ((([⟨2, 9, 0, []⟩, ⟨1, 5, 0, []⟩] : List BlogPost).mergeSort
        created_desc).drop ((1 - 1) * 1)).take 1 ∧
    (⟨[⟨2, 9, 0, []⟩], 2, 2, 1⟩ : BlogPage).posts.Pairwise
      (fun a b => b.created_at ≤ a.created_at) ∧
    (⟨[⟨2, 9, 0, []⟩], 2, 2, 1⟩ : BlogPage).total =
      ([⟨2, 9, 0, []⟩, ⟨1, 5, 0, []⟩] : List BlogPost).length ∧
    (⟨[⟨2, 9, 0, []⟩], 2, 2, 1⟩ : BlogPage).pages =
      ([⟨2, 9, 0, []⟩, ⟨1, 5, 0, []⟩] : List BlogPost).length ⌈/⌉ 1 ∧
    (⟨[⟨2, 9, 0, []⟩], 2, 2, 1⟩ : BlogPage).current_page = 1 := by
  have hsort : ([⟨2, 9, 0, []⟩, ⟨1, 5, 0, []⟩] : List BlogPost).mergeSort
      created_desc = [⟨2, 9, 0, []⟩, ⟨1, 5, 0, []⟩] :=
    List.mergeSort_of_sorted (by decide)
  exact (get_blog_posts_pagination 1 1 [⟨2, 9, 0, []⟩, ⟨1, 5, 0, []⟩]
    (by decide) (by decide)).1 ⟨[⟨2, 9, 0, []⟩], 2, 2, 1⟩
    (by simp [get_blog_posts, hsort])

/-- C7: `register_user` fails — returning `(False, message)` and leaving
the users collection and the session unchanged — whenever a field is
empty or a user with the same email exists; on success it appends exactly
one user document whose password is the hash of the given password, and
sets `session['user_id']` and `session['user_name']`. -/
theorem register_user_spec (hashpw : String → String)
    (email password name : String) (sess : Session) (db : UsersDb) :
    ((email = "" ∨ password = "" ∨ name = "" ∨ ∃ u ∈ db.users, u.email = email) →
      (register_user hashpw email password name sess db).1.1 = false ∧
      (register_user hashpw email password name sess db).2.1 = sess ∧
      (register_user hashpw email password name sess db).2.2 = db) ∧
    (email ≠ "" → password ≠ "" → name ≠ "" →
      (∀ u ∈ db.users, u.email ≠ email) →
      (register_user hashpw email password name sess db).1.1 = true ∧
      (register_user hashpw email password name sess db).2.2.users =
        db.users ++ [⟨db.next_id, email, hashpw password, name⟩] ∧
      (register_user hashpw email password name sess db).2.1.user_id =
        some (toString db.next_id) ∧
      (register_user hashpw email password name sess db).2.1.user_name =
        some name) := by
  constructor
  · rintro (h | h | h | ⟨u, hu, he⟩)
    · simp [register_user, h]
    · simp [register_user, h]
    · simp [register_user, h]
    · unfold register_user
      split_ifs with hif

      · exact ⟨rfl, rfl, rfl⟩
      · cases hf : db.users.find? (fun v => v.email == email) with
        | some v => simp [hf]
        | none =>
          exact absurd (by simpa using List.find?_eq_none.mp hf u hu) (by simp [he])
  · intro h1 h2 h3 h4
    unfold register_user
    rw [if_neg (by simp [h1, h2, h3])]
    cases hf : db.users.find? (fun v => v.email == email) with
    | some v =>
      exact absurd (by simpa using List.find?_some hf)
        (h4 v (List.mem_of_find?_eq_some hf))
    | none => exact ⟨rfl, rfl, rfl, rfl⟩

/-- Witness for C7: a rejected empty-email registration and an accepted
fresh registration, at concrete inputs. -/
theorem register_user_spec_witness :
    ((register_user id "" "pw" "Bob" ⟨none, none⟩ ⟨[], 0⟩).1.1 = false ∧
     (register_user id "" "pw" "Bob" ⟨none, none⟩ ⟨[], 0⟩).2.1 = ⟨none, none⟩ ∧
     (register_user id "" "pw" "Bob" ⟨none, none⟩ ⟨[], 0⟩).2.2 = ⟨[], 0⟩) ∧
    ((register_user id "a@b.c" "pw" "Bob" ⟨none, none⟩ ⟨[], 0⟩).1.1 = true ∧
     (register_user id "a@b.c" "pw" "Bob" ⟨none, none⟩ ⟨[], 0⟩).2.2.users =
       [] ++ [⟨0, "a@b.c", id "pw", "Bob"⟩] ∧
     (register_user id "a@b.c" "pw" "Bob" ⟨none, none⟩ ⟨[], 0⟩).2.1.user_id =
       some (toString 0) ∧
     (register_user id "a@b.c" "pw" "Bob" ⟨none, none⟩ ⟨[], 0⟩).2.1.user_name =
       some "Bob") :=
  ⟨(register_user_spec id "" "pw" "Bob" ⟨none, none⟩ ⟨[], 0⟩).1 (Or.inl rfl),
   (register_user_spec id "a@b.c" "pw" "Bob" ⟨none, none⟩ ⟨[], 0⟩).2
     (by decide) (by decide) (by decide) (by simp)⟩

/-- No document of `coll` has id `pid`: `update_one` matches nothing. -/
theorem updateFirst_not_mem (coll : List BlogPost) (pid : Nat)
    (f : BlogPost → BlogPost) (h : pid ∉ coll.map (fun p => p.id)) :
    updateFirst coll pid f = coll := by
  induction coll with
  | nil => rfl
  | cons p rest ih =>
    simp only [List.map_cons, List.mem_cons, not_or] at h
    show (if p.id = pid then f p :: rest else p :: updateFirst rest pid f) =
      p :: rest
    rw [if_neg (fun hh => h.1 hh.symm), ih h.2]

/-- No document of `coll` has id `pid`: `find_one` matches nothing. -/
theorem any_id_not_mem (coll : List BlogPost) (pid : Nat) (f : BlogPost → Bool)
    (h : pid ∉ coll.map (fun p => p.id)) :
    coll.any (fun p => p.id == pid && f p) = false := by
  simp only [List.any_eq_false, Bool.and_eq_true, beq_iff_eq, not_and]
  intro p hp he
  exact fun _ => h (he ▸ List.mem_map_of_mem (fun q => q.id) hp)

/-- `toggle_like` skips a head post with the wrong id. -/
theorem toggle_like_cons_ne (q : BlogPost) (rest : List BlogPost) (pid : Nat)
    (uid : String) (h : q.id ≠ pid) :
    toggle_like (q :: rest) pid uid = q :: toggle_like rest pid uid := by
  unfold toggle_like
  have hq : (q.id == pid && q.likes_by.contains uid) = false := by simp [h]
  simp only [List.any_cons, hq, Bool.false_or]
  split_ifs <;> simp [updateFirst, h]

/-- `toggle_like` on a head post with the matching id (unique in the
collection): unlike when the user already likes it, like otherwise. -/
theorem toggle_like_cons_eq (p : BlogPost) (rest : List BlogPost) (pid : Nat)
    (uid : String) (hpid : p.id = pid)
    (hrest : pid ∉ rest.map (fun q => q.id)) :
    toggle_like (p :: rest) pid uid =
      (if uid ∈ p.likes_by then
        { p with likes_by := p.likes_by.filter (fun u => u != uid),
                 likes := p.likes - 1 }
      else
        { p with likes_by := p.likes_by ++ [uid],
                 likes := p.likes + 1 }) :: rest := by
  subst hpid
  unfold toggle_like
  have h2 := any_id_not_mem rest p.id (fun q => q.likes_by.contains uid) hrest
  simp only [List.any_cons, h2, Bool.or_false, beq_self_eq_true, Bool.true_and]
  by_cases hm : uid ∈ p.likes_by <;>
    simp [hm, updateFirst]

/-- C9: calling `toggle_like` twice with the same post id and user id
restores the post's `likes` count and its `likes_by` membership (the
second call exactly undoes the first).  The MongoDB `_id` index makes ids
unique, which the `Nodup` hypothesis captures. -/
theorem toggle_like_twice_restores (coll : List BlogPost) (pid : Nat)
    (uid : String) (hnd : (coll.map (fun p => p.id)).Nodup)
    (p : BlogPost) (hp : p ∈ coll) (hid : p.id = pid) :
    ∃ q ∈ toggle_like (toggle_like coll pid uid) pid uid,
      q.id = pid ∧ q.likes = p.likes ∧
      (uid ∈ q.likes_by ↔ uid ∈ p.likes_by) := by
  subst hid
  induction coll with
  | nil => cases hp
  | cons hd rest ih =>
    rcases List.mem_cons.mp hp with heq | hmem
    · subst heq
      have hrest : p.id ∉ rest.map (fun q => q.id) := by
        simpa using (List.nodup_cons.mp hnd).1
      by_cases hm : uid ∈ p.likes_by
      · rw [toggle_like_cons_eq p rest p.id uid rfl hrest, if_pos hm,
          toggle_like_cons_eq
            { p with likes_by := p.likes_by.filter (fun u => u != uid),
                     likes := p.likes - 1 }
            rest p.id uid rfl hrest,
          if_neg (by simp)]
        refine ⟨_, List.mem_cons_self _ _, rfl,
          by show p.likes - 1 + 1 = p.likes; omega, ?_⟩
        simp [hm]
      · rw [toggle_like_cons_eq p rest p.id uid rfl hrest, if_neg hm,
          toggle_like_cons_eq
            { p with likes_by := p.likes_by ++ [uid], likes := p.likes + 1 }
            rest p.id uid rfl hrest,
          if_pos (by simp)]
        refine ⟨_, List.mem_cons_self _ _, rfl,
          by show p.likes + 1 - 1 = p.likes; omega, ?_⟩
        have hfil : p.likes_by.filter (fun u => u != uid) = p.likes_by :=
          List.filter_eq_self.mpr (fun u hu => by
            simp only [bne_iff_ne, ne_eq, decide_eq_true_eq]
            exact fun hc => hm (hc ▸ hu))
        simp [List.filter_append, hfil, hm]
    · have hne : hd.id ≠ p.id := by
        intro hc
        exact (List.nodup_cons.mp hnd).1
          (by show hd.id ∈ rest.map (fun q => q.id)
              rw [hc]
              exact List.mem_map_of_mem (fun q => q.id) hmem)
      rw [toggle_like_cons_ne hd rest p.id uid hne,
        toggle_like_cons_ne hd _ p.id uid hne]
      obtain ⟨q, hq, h1, h2, h3⟩ := ih (List.nodup_cons.mp hnd).2 hmem
      exact ⟨q, List.mem_cons_of_mem _ hq, h1, h2, h3⟩

/-- Witness for C9: a one-post collection whose author has not yet liked
the post. -/
theorem toggle_like_twice_restores_witness :
    ∃ q ∈ toggle_like (toggle_like [⟨7, 0, 3, ["bob"]⟩] 7 "alice") 7 "alice",
      q.id = 7 ∧ q.likes = (⟨7, 0, 3, ["bob"]⟩ : BlogPost).likes ∧
      ("alice" ∈ q.likes_by ↔
        "alice" ∈ (⟨7, 0, 3, ["bob"]⟩ : BlogPost).likes_by) :=
  toggle_like_twice_restores [⟨7, 0, 3, ["bob"]⟩] 7 "alice" (by decide)
    ⟨7, 0, 3, ["bob"]⟩ (by decide) rfl

/-- Incrementing a present key of a dict keeps the key set and raises the
value sum by one. -/
theorem dictIncr_spec (d : List (String × Nat)) (key : String)
    (h : key ∈ d.map Prod.fst) :
    ∃ d2, dictIncr d key = some d2 ∧
      d2.map Prod.fst = d.map Prod.fst ∧
      (d2.map Prod.snd).sum = (d.map Prod.snd).sum + 1 := by
  induction d with
  | nil => simp at h
  | cons kv rest ih =>
    obtain ⟨k, v⟩ := kv
    by_cases hk : k = key
    · subst hk
      exact ⟨(k, v + 1) :: rest, by simp [dictIncr], by simp, by simp; omega⟩
    · have h2 : key ∈ rest.map Prod.fst := by
        rcases List.mem_cons.mp h with hc | hc
        · exact absurd hc.symm hk
        · exact hc
      obtain ⟨d2, hd2, hkeys, hsum⟩ := ih h2
      exact ⟨(k, v) :: d2, by simp [dictIncr, hk, hd2], by simp [hkeys],
        by simp [hsum]; omega⟩

/-- The counting loop of `get_user_statistics` succeeds on entries whose
keys are all present, preserves the key sets, and adds the number of
entries to each value sum. -/
theorem stats_fold_spec (l : List HistEntry) :
    ∀ r d : List (String × Nat),
      (∀ p ∈ l, p.risk_level ∈ r.map Prod.fst ∧
        p.disease_type ∈ d.map Prod.fst) →
      ∃ r2 d2, l.foldl stats_step (some (r, d)) = some (r2, d2) ∧
        r2.map Prod.fst = r.map Prod.fst ∧
        d2.map Prod.fst = d.map Prod.fst ∧
        (r2.map Prod.snd).sum = (r.map Prod.snd).sum + l.length ∧
        (d2.map Prod.snd).sum = (d.map Prod.snd).sum + l.length := by
  induction l with
  | nil => exact fun r d _ => ⟨r, d, rfl, rfl, rfl, by simp, by simp⟩
  | cons p rest ih =>
    intro r d h
    obtain ⟨hr, hd⟩ := h p (List.mem_cons_self _ _)
    obtain ⟨r1, hr1, hrk, hrs⟩ := dictIncr_spec r p.risk_level hr
    obtain ⟨d1, hd1, hdk, hds⟩ := dictIncr_spec d p.disease_type hd
    obtain ⟨r2, d2, hfold, h1, h2, h3, h4⟩ := ih r1 d1 (fun q hq => by
      rw [hrk, hdk]; exact h q (List.mem_cons_of_mem _ hq))
    refine ⟨r2, d2, ?_, by rw [h1, hrk], by rw [h2, hdk],
      by rw [h3, hrs, List.length_cons]; omega,
      by rw [h4, hds, List.length_cons]; omega⟩
    simpa [stats_step, hr1, hd1] using hfold

/-- C10: `get_user_statistics` returns `None` exactly when the stored
prediction list is empty; on a non-empty list whose entries all carry one
of the three risk levels and one of the three disease types, it returns
`total_predictions` equal to the length, and both count dicts sum to that
length. -/
theorem get_user_statistics_counts (preds : List HistEntry) :
    (get_user_statistics preds = .returned none ↔ preds = []) ∧
    (preds ≠ [] →
      (∀ p ∈ preds,
        p.risk_level ∈ (["Élevé", "Modéré", "Faible"] : List String) ∧
        p.disease_type ∈
          (["diabetes", "hypertension", "cardiovascular"] : List String)) →
      ∃ s, get_user_statistics preds = .returned (some s) ∧
        s.total_predictions = preds.length ∧
        (s.risk_levels.map Prod.snd).sum = preds.length ∧
        (s.disease_types.map Prod.snd).sum = preds.length) := by
  constructor
  · constructor
    · intro h
      by_contra hne
      unfold get_user_statistics at h
      rw [if_neg (by simpa using hne)] at h
      split at h <;> simp_all
    · intro h; subst h; rfl
  · intro hne hall
    have hini : ∀ p ∈ preds,
        p.risk_level ∈ risk_levels_init.map Prod.fst ∧
        p.disease_type ∈ disease_types_init.map Prod.fst := by
      simpa [risk_levels_init, disease_types_init] using hall
    obtain ⟨r2, d2, hfold, hk1, hk2, hs1, hs2⟩ :=
      stats_fold_spec preds risk_levels_init disease_types_init hini
    refine ⟨⟨preds.length, r2, d2⟩, ?_, rfl, ?_, ?_⟩
    · unfold get_user_statistics
      rw [if_neg (by simpa using hne), hfold]
    · rw [hs1]; simp [risk_levels_init]
    · rw [hs2]; simp [disease_types_init]

/-- Witness for C10: a two-entry history with valid keys. -/
theorem get_user_statistics_counts_witness :
    ∃ s, get_user_statistics
        [⟨"diabetes", "Élevé", 75, 0⟩, ⟨"hypertension", "Faible", 25, 1⟩] =
      .returned (some s) ∧
      s.total_predictions =
        ([⟨"diabetes", "Élevé", 75, 0⟩,
          ⟨"hypertension", "Faible", 25, 1⟩] : List HistEntry).length ∧
      (s.risk_levels.map Prod.snd).sum =
        ([⟨"diabetes", "Élevé", 75, 0⟩,
          ⟨"hypertension", "Faible", 25, 1⟩] : List HistEntry).length ∧
      (s.disease_types.map Prod.snd).sum =
        ([⟨"diabetes", "Élevé", 75, 0⟩,
          ⟨"hypertension", "Faible", 25, 1⟩] : List HistEntry).length :=
  (get_user_statistics_counts
    [⟨"diabetes", "Élevé", 75, 0⟩, ⟨"hypertension", "Faible", 25, 1⟩]).2
    (by decide) (by decide)

end MediPredict
